import Mathlib

/-!
# Verification of the kintone MCP dispatch/adapter core

Shallow embedding of the two AWS Lambda entry points of the repository
`kintone-mcp-on-agentcore`:

* `handlerM` embeds the multi-envelope handler in `src/MyKintone/src/index.ts`
  (11 classification patterns, three response families);
* `handlerS` embeds the second entry point found in `src/unnamed/part_000`
  (3 classification patterns, `extractToolName` based on split/last-segment).

JSON values are modelled by the inductive `Json`; JavaScript `undefined` is
modelled by `Option Json` (`none` = absent).  Tool-name fields on which the
source calls string methods (`includes`, `startsWith`, `replace`) are read
through `jsStr?`, i.e. the embedding's domain takes these fields to be strings
when present.  `JSON.parse` is an oracle parameter `pj`; `JSON.stringify` is
the executable `render`.  The remote record-store capability is a `Client`
record of `Except`-valued operations; thrown JavaScript errors are `Except.error`
carrying the message, and the outermost `try/catch` of each handler is the
final `match` in `handlerM`/`handlerS`.
-/

namespace KintoneMcp

/-- JSON values (numbers restricted to integers, which is all the source uses). -/
inductive Json where
  | null : Json
  | bool : Bool → Json
  | num : Int → Json
  | str : String → Json
  | arr : List Json → Json
  | obj : List (String × Json) → Json

/-! ## String primitives

The JavaScript string operations used by the source (`includes`, `indexOf` +
`substring`, `replace` with a string pattern = replace first occurrence,
`startsWith`, `split`), implemented over `List Char` so that they reduce in the
kernel. -/

def chars (s : String) : List Char := s.data

def ofChars (l : List Char) : String := String.mk l

/-- `pat` is a prefix of `l`. -/
def listPref : List Char → List Char → Bool
  | [], _ => true
  | _ :: _, [] => false
  | p :: ps, c :: cs => p = c && listPref ps cs

/-- Index of the first occurrence of `pat` in `l`, if any. -/
def idxOf (pat : List Char) : List Char → Option Nat
  | [] => if pat = [] then some 0 else none
  | c :: cs =>
    if listPref pat (c :: cs) then some 0
    else (idxOf pat cs).map (· + 1)

/-- JavaScript `s.includes(pat)`. -/
def strIncludes (s pat : String) : Bool := (idxOf (chars pat) (chars s)).isSome

/-- JavaScript `s.substring(s.indexOf(pat) + pat.length)` (identity when absent). -/
def strAfterFirst (s pat : String) : String :=
  match idxOf (chars pat) (chars s) with
  | some i => ofChars ((chars s).drop (i + (chars pat).length))
  | none => s

/-- JavaScript `s.replace(pat, '')` with a string pattern: deletes the first
occurrence of `pat` anywhere in `s` (identity when absent). -/
def replaceFirst (s pat : String) : String :=
  match idxOf (chars pat) (chars s) with
  | some i => ofChars ((chars s).take i ++ (chars s).drop (i + (chars pat).length))
  | none => s

/-- JavaScript `s.startsWith(pat)`. -/
def strStartsWith (s pat : String) : Bool := listPref (chars pat) (chars s)

/-- Drop everything up to and including successive occurrences of `pat`,
keeping only the last segment (fuel-driven). -/
def lastSegAux (pat : List Char) : Nat → List Char → List Char
  | 0, l => l
  | fuel + 1, l =>
    match idxOf pat l with
    | none => l
    | some i => lastSegAux pat fuel (l.drop (i + pat.length))

/-- The last segment of JavaScript `s.split(pat)` (for nonempty `pat`). -/
def lastSegment (s pat : String) : String :=
  ofChars (lastSegAux (chars pat) (chars s).length (chars s))

/-! ## JSON accessors, JavaScript truthiness -/

/-- Property access `j[k]` (`undefined` = `none` on non-objects / missing keys). -/
def Json.get? : Json → String → Option Json
  | .obj l, k => (l.find? (fun p => p.1 = k)).map (·.2)
  | _, _ => none

/-- Optional-chaining path access `j?.k₁?.k₂...`. -/
def jpath (j : Json) : List String → Option Json
  | [] => some j
  | k :: ks =>
    match j.get? k with
    | some v => jpath v ks
    | none => none

/-- JavaScript truthiness of a defined value. -/
def Json.truthy : Json → Bool
  | .null => false
  | .bool b => b
  | .num n => n != 0
  | .str s => s != ""
  | .arr _ => true
  | .obj _ => true

/-- Truthiness of a possibly-`undefined` value. -/
def otruthy (o : Option Json) : Bool := (o.map Json.truthy).getD false

/-- Truthiness of a possibly-`undefined` string. -/
def otruthyS (o : Option String) : Bool := (o.map (· != "")).getD false

/-- Read a field value as a string (the embedding's typed reading of the
tool-name / method / body fields on which the source calls string methods). -/
def jsStr? : Option Json → Option String
  | some (.str s) => some s
  | _ => none

/-- JavaScript `a || b` on two possibly-`undefined` values. -/
def truthyOrO (a b : Option Json) : Option Json := if otruthy a then a else b

/-- JavaScript `a || dflt` with a defined default. -/
def truthyOrD (a : Option Json) (dflt : Json) : Json :=
  if otruthy a then a.getD dflt else dflt

/-- `Object.keys(event).length` (arrays and strings report their length;
a primitive reports zero keys). -/
def keyCount : Json → Nat
  | .obj l => l.length
  | .arr l => l.length
  | .str s => (chars s).length
  | _ => 0

/-- `Object.keys(event)` as JSON strings. -/
def jsKeys : Json → List Json
  | .obj l => l.map (fun p => .str p.1)
  | .arr l => (List.range l.length).map (fun i => .str (toString i))
  | .str s => (List.range (chars s).length).map (fun i => .str (toString i))
  | _ => []

/-- JavaScript `typeof`. -/
def jsTypeof : Json → String
  | .null => "object"
  | .bool _ => "boolean"
  | .num _ => "number"
  | .str _ => "string"
  | .arr _ => "object"
  | .obj _ => "object"

/-- `event.method === 'tools/call'`. -/
def isMcp (e : Json) : Bool :=
  match e.get? "method" with
  | some (.str s) => s = "tools/call"
  | _ => false

/-! ## `JSON.stringify` -/

/-- Escape a character for a JSON string literal. -/
def escChar (c : Char) : List Char := if c = '"' ∨ c = '\\' then ['\\', c] else [c]

/-- Render a JSON string literal. -/
def renderStr (s : String) : String :=
  ofChars ('"' :: (chars s).foldr (fun c acc => escChar c ++ acc) ['"'])

mutual

/-- `JSON.stringify`. -/
def render : Json → String
  | .null => "null"
  | .bool true => "true"
  | .bool false => "false"
  | .num n => toString n
  | .str s => renderStr s
  | .arr xs => "[" ++ renderArr xs ++ "]"
  | .obj fs => "\x7b" ++ renderObj fs ++ "\x7d"

/-- Render array elements, comma separated. -/
def renderArr : List Json → String
  | [] => ""
  | [x] => render x
  | x :: y :: xs => render x ++ "," ++ renderArr (y :: xs)

/-- Render object fields, comma separated. -/
def renderObj : List (String × Json) → String
  | [] => ""
  | [(k, v)] => renderStr k ++ ":" ++ render v
  | (k, v) :: f :: fs => renderStr k ++ ":" ++ render v ++ "," ++ renderObj (f :: fs)

end

/-! ## Configuration (`getKintoneConfig`, `createKintoneClient`)

`Env` models the relevant process environment variables; a variable set to the
empty string is falsy, like an absent one. -/

structure Env where
  baseUrl : Option String
  username : Option String
  password : Option String
  basicUser : Option String
  basicPass : Option String

structure Config where
  baseUrl : String
  username : Option String
  password : Option String
  basicAuth : Option (String × String)

/-- `getKintoneConfig`: reads the environment, throwing when the base URL or
the username/password pair is missing. -/
def getKintoneConfig (env : Env) : Except String Config :=
  if otruthyS env.baseUrl = false then
    .error "KINTONE_BASE_URL環境変数が設定されていません"
  else
    let base := env.baseUrl.getD ""
    if otruthyS env.username && otruthyS env.password then
      .ok
        { baseUrl := base
          username := env.username
          password := env.password
          basicAuth :=
            if otruthyS env.basicUser && otruthyS env.basicPass then
              some (env.basicUser.getD "", env.basicPass.getD "")
            else none }
    else .error "認証情報が設定されていません（KINTONE_USERNAME/KINTONE_PASSWORD が必要です）"

/-- The fallible part of `createKintoneClient`: throws when the config carries
no username/password pair (unreachable for a config built by
`getKintoneConfig`). -/
def createCheck (c : Config) : Except String Unit :=
  if otruthyS c.username && otruthyS c.password then .ok ()
  else .error "ユーザー名・パスワードが設定されていません"

/-! ## Parameter schemas (`zod`)

`getRecordsSchema`, `getAppSchema`, `addRecordsSchema`.  `parse` throws on a
mismatch; the exact `ZodError` message text is not significant downstream, only
that the throw propagates to the outermost catch. -/

structure GetRecordsP where
  app : String
  query : Option String
  fields : Option (List String)
  totalCount : Option Bool

structure GetAppP where
  id : String

structure AddRecordsP where
  app : String
  records : List Json

/-- All elements are JSON strings (for `z.array(z.string())`). -/
def allStrings : List Json → Option (List String)
  | [] => some []
  | .str s :: xs => (allStrings xs).map (s :: ·)
  | _ => none

/-- All elements are JSON objects (for `z.array(z.record(z.any()))`). -/
def allRecords (l : List Json) : Bool := l.all (fun j => match j with | .obj _ => true | _ => false)

/-- `z.boolean().optional()` check of the `totalCount` field. -/
def parseGRTotalCount (a : String) (q : Option String) (f : Option (List String)) :
    Option Json → Except String GetRecordsP
  | some (.bool b) => .ok ⟨a, q, f, some b⟩
  | none => .ok ⟨a, q, f, none⟩
  | some _ => .error "ZodError: totalCount: Expected boolean"

/-- `getRecordsSchema.parse`. -/
def parseGetRecords : Option Json → Except String GetRecordsP
  | none => .error "ZodError: Expected object, received undefined"
  | some j =>
    match j with
    | .obj _ =>
      match j.get? "app" with
      | some (.str a) =>
        match j.get? "query", j.get? "fields", j.get? "totalCount" with
        | q, f, t =>
          match q with
          | some (.str qs) =>
            (match f with
             | some (.arr fs) =>
               (match allStrings fs with
                | some fl => parseGRTotalCount a (some qs) (some fl) t
                | none => .error "ZodError: fields: Expected string")
             | none => parseGRTotalCount a (some qs) none t
             | some _ => .error "ZodError: fields: Expected array")
          | none =>
            (match f with
             | some (.arr fs) =>
               (match allStrings fs with
                | some fl => parseGRTotalCount a none (some fl) t
                | none => .error "ZodError: fields: Expected string")
             | none => parseGRTotalCount a none none t
             | some _ => .error "ZodError: fields: Expected array")
          | some _ => .error "ZodError: query: Expected string"
      | some _ => .error "ZodError: app: Expected string"
      | none => .error "ZodError: app: Required"
    | _ => .error "ZodError: Expected object"

/-- `getAppSchema.parse` (also used for `get-form-fields`). -/
def parseGetApp : Option Json → Except String GetAppP
  | none => .error "ZodError: Expected object, received undefined"
  | some j =>
    match j with
    | .obj _ =>
      match j.get? "id" with
      | some (.str i) => .ok ⟨i⟩
      | some _ => .error "ZodError: id: Expected string"
      | none => .error "ZodError: id: Required"
    | _ => .error "ZodError: Expected object"

/-- `addRecordsSchema.parse`. -/
def parseAddRecords : Option Json → Except String AddRecordsP
  | none => .error "ZodError: Expected object, received undefined"
  | some j =>
    match j with
    | .obj _ =>
      match j.get? "app", j.get? "records" with
      | some (.str a), some (.arr rs) =>
        if allRecords rs then .ok ⟨a, rs⟩
        else .error "ZodError: records: Expected object"
      | some (.str _), some _ => .error "ZodError: records: Expected array"
      | some (.str _), none => .error "ZodError: records: Required"
      | some _, _ => .error "ZodError: app: Expected string"
      | none, _ => .error "ZodError: app: Required"
    | _ => .error "ZodError: Expected object"

/-! ## Record-store capability and tool handlers (`KintoneTools`) -/

/-- Uniform tool outcome: `{success:true, data}` or `{success:false, error}`. -/
inductive Outcome where
  | success (d : Json)
  | failure (msg : String)

/-- `success` flag of an outcome. -/
def Outcome.ok? : Outcome → Bool
  | .success _ => true
  | .failure _ => false

/-- The JSON object a tool handler returns. -/
def outcomeJson : Outcome → Json
  | .success d => .obj [("success", .bool true), ("data", d)]
  | .failure m => .obj [("success", .bool false), ("error", .str m)]

/-- The remote record-store client (`KintoneRestAPIClient`): each operation
either returns its response payload or throws an error message. -/
structure Client where
  getRecordsR : String → Option String → Option (List String) → Bool → Except String (Json × Json)
  getAppR : String → Except String Json
  addRecordsR : String → List Json → Except String (Json × Json)
  getAppsR : Except String Json
  getFormFieldsR : String → Except String Json

/-- `KintoneTools.getRecords` (defaults `totalCount` to `true`). -/
def toolsGetRecords (c : Client) (p : GetRecordsP) : Outcome :=
  match c.getRecordsR p.app p.query p.fields (p.totalCount.getD true) with
  | .ok (records, totalCount) =>
    .success (.obj [("records", records), ("totalCount", totalCount)])
  | .error m => .failure m

/-- `KintoneTools.getApp`. -/
def toolsGetApp (c : Client) (p : GetAppP) : Outcome :=
  match c.getAppR p.id with
  | .ok d => .success d
  | .error m => .failure m

/-- `KintoneTools.addRecords`. -/
def toolsAddRecords (c : Client) (p : AddRecordsP) : Outcome :=
  match c.addRecordsR p.app p.records with
  | .ok (ids, revisions) => .success (.obj [("ids", ids), ("revisions", revisions)])
  | .error m => .failure m

/-- `KintoneTools.getApps`. -/
def toolsGetApps (c : Client) : Outcome :=
  match c.getAppsR with
  | .ok apps => .success (.obj [("apps", apps)])
  | .error m => .failure m

/-- `KintoneTools.getFormFields`. -/
def toolsGetFormFields (c : Client) (p : GetAppP) : Outcome :=
  match c.getFormFieldsR p.id with
  | .ok props => .success (.obj [("properties", props)])
  | .error m => .failure m

/-! ## Envelope classification (`index.ts` patterns 1–11) -/

/-- The three historical field names of the legacy prefixed-name envelope. -/
inductive LegacyField where
  | nameF
  | toolNameF
  | toolUnderF
deriving DecidableEq

/-- The envelope kinds of the multi-envelope entry point, in source order. -/
inductive EnvelopeKind where
  | gatewayManaged
  | emptyPayload
  | jsonRpcCall
  | legacyOperationId
  | legacyPrefixedName (f : LegacyField)
  | queueMessage
  | httpProxy
  | eventBus
  | directInvoke
deriving DecidableEq

/-- `context.clientContext?.custom`. -/
def ccOf (ctx : Json) : Option Json := jpath ctx ["clientContext", "custom"]

/-- `context.clientContext?.custom?.bedrockAgentCoreToolName`. -/
def ctxTool (ctx : Json) : Option Json :=
  jpath ctx ["clientContext", "custom", "bedrockAgentCoreToolName"]

/-- `context.clientContext?.Custom?.bedrockAgentCoreToolName` (capitalised
variant probed only at the render sites). -/
def ctxToolCap (ctx : Json) : Option Json :=
  jpath ctx ["clientContext", "Custom", "bedrockAgentCoreToolName"]

/-- Pattern 1: `customContext && customContext.bedrockAgentCoreToolName`. -/
def pGateway (ctx : Json) : Bool := otruthy (ccOf ctx) && otruthy (ctxTool ctx)

/-- Pattern 2: `Object.keys(event).length === 0`. -/
def pEmpty (e : Json) : Bool := keyCount e == 0

/-- Pattern 3: `event.method === 'tools/call' && event.params`. -/
def pMcp (e : Json) : Bool := isMcp e && otruthy (e.get? "params")

/-- Pattern 4: `event.operationId || (event.context && event.context.input !== undefined)`. -/
def pOpId (e : Json) : Bool :=
  otruthy (e.get? "operationId") ||
    (otruthy (e.get? "context") && (jpath e ["context", "input"]).isSome)

/-- Patterns 5–7: the given field holds a string starting with the
gateway-target prefix. -/
def pLegacy (e : Json) (field : String) : Bool :=
  match e.get? field with
  | some (.str s) => (s != "") && strStartsWith s "MyKintoneTarget___"
  | _ => false

/-- Pattern 8: `event.Records && Array.isArray(event.Records)`. -/
def pQueue (e : Json) : Bool :=
  match e.get? "Records" with
  | some (.arr _) => true
  | _ => false

/-- Pattern 9: `event.httpMethod || event.requestContext`. -/
def pHttp (e : Json) : Bool :=
  otruthy (e.get? "httpMethod") || otruthy (e.get? "requestContext")

/-- Pattern 10: `event.source && event.source === 'aws.events'`. -/
def pEvents (e : Json) : Bool :=
  match e.get? "source" with
  | some (.str s) => s = "aws.events"
  | _ => false

/-- The ordered predicate/kind list of the classification chain. -/
def predList (e ctx : Json) : List (Bool × EnvelopeKind) :=
  [(pGateway ctx, .gatewayManaged),
   (pEmpty e, .emptyPayload),
   (pMcp e, .jsonRpcCall),
   (pOpId e, .legacyOperationId),
   (pLegacy e "name", .legacyPrefixedName .nameF),
   (pLegacy e "toolName", .legacyPrefixedName .toolNameF),
   (pLegacy e "tool_name", .legacyPrefixedName .toolUnderF),
   (pQueue e, .queueMessage),
   (pHttp e, .httpProxy),
   (pEvents e, .eventBus)]

/-- First matching kind, defaulting to `DirectInvoke`. -/
def firstMatch : List (Bool × EnvelopeKind) → EnvelopeKind
  | [] => .directInvoke
  | (b, k) :: rest => if b then k else firstMatch rest

/-- The classification chain of the multi-envelope entry point: the `if/else`
cascade of patterns 1–11, first match wins. -/
def classifyM (e ctx : Json) : EnvelopeKind :=
  if pGateway ctx then .gatewayManaged
  else if pEmpty e then .emptyPayload
  else if pMcp e then .jsonRpcCall
  else if pOpId e then .legacyOperationId
  else if pLegacy e "name" then .legacyPrefixedName .nameF
  else if pLegacy e "toolName" then .legacyPrefixedName .toolNameF
  else if pLegacy e "tool_name" then .legacyPrefixedName .toolUnderF
  else if pQueue e then .queueMessage
  else if pHttp e then .httpProxy
  else if pEvents e then .eventBus
  else .directInvoke

/-! ## Tool-id resolution -/

/-- Gateway-managed resolution (`index.ts` lines 408–415): take the substring
after the **first** occurrence of the delimiter, then delete the first
occurrence of `kintone-` anywhere in the remainder. -/
def gatewayToolOf (s : String) : String :=
  if strIncludes s "___" then replaceFirst (strAfterFirst s "___") "kintone-" else s

/-- Legacy prefixed-name resolution (`index.ts` lines 450, 490, 495, 500):
delete the literal target prefix, then the first `kintone-` occurrence. -/
def legacyToolOf (s : String) : String :=
  replaceFirst (replaceFirst s "MyKintoneTarget___") "kintone-"

/-- JSON-RPC `params.name` resolution (`index.ts` lines 449–456): strip only
when the name starts with the target prefix. -/
def mcpNameToolOf (s : String) : String :=
  if (s != "") && strStartsWith s "MyKintoneTarget___" then legacyToolOf s else s

/-- The `operationId` → tool table (`index.ts` lines 467–475). -/
def opIdAssoc (s : String) : Option String :=
  if s = "getApps" then some "get-apps"
  else if s = "getApp" then some "get-app"
  else if s = "getRecords" then some "get-records"
  else if s = "addRecords" then some "add-records"
  else if s = "getFormFields" then some "get-form-fields"
  else if s = "createPayment" then some "get-apps"
  else if s = "processRefund" then some "get-apps"
  else none

/-- `toolMapping[operationId] || operationId`. -/
def opIdToolOf (s : String) : String :=
  match opIdAssoc s with
  | some t => t
  | none => s

/-- Top-level normalization (`index.ts` lines 575–578): strip `kintone-` only
when the tool starts with it. -/
def kintonePrefixStep (s : String) : String :=
  if (s != "") && strStartsWith s "kintone-" then replaceFirst s "kintone-" else s

/-- The identity alias table (`index.ts` lines 581–589). -/
def toolNameMappingA (s : String) : Option String :=
  if s = "get-apps" then some "get-apps"
  else if s = "get-app" then some "get-app"
  else if s = "get-records" then some "get-records"
  else if s = "add-records" then some "add-records"
  else if s = "get-form-fields" then some "get-form-fields"
  else if s = "update-records" then some "update-records"
  else if s = "delete-records" then some "delete-records"
  else none

/-- `if (tool && toolNameMapping[tool]) tool = toolNameMapping[tool]`. -/
def aliasStep (s : String) : String :=
  if s != "" then
    match toolNameMappingA s with
    | some v => if v != "" then v else s
    | none => s
  else s

/-- Normalization applied to the extracted tool of the multi-envelope entry
point: `kintone-` prefix strip, then alias table. -/
def normalizeToolM (t : Option String) : Option String :=
  t.map (fun s => aliasStep (kintonePrefixStep s))

/-- `extractToolName` of the second entry point (`part_000` lines 793–805):
split on the delimiter and keep the **last** segment. -/
def extractToolNameS : Option String → Option String
  | some s => if (s != "") && strIncludes s "___" then some (lastSegment s "___") else some s
  | none => none

/-- Normalization applied by the second entry point (no alias table). -/
def normalizeToolS (t : Option String) : Option String := t.map kintonePrefixStep

/-! ## Responses and dispatch -/

/-- The response shapes at the boundary: a JSON-RPC result, a JSON-RPC error,
an HTTP-shaped `{statusCode, headers, body}` object, or a bare object. -/
inductive Response where
  | rpcResult (id : Json) (isError : Bool) (text : String)
  | rpcError (id : Json) (code : Int) (message : String) (dat : Option Json)
  | http (statusCode : Nat) (headers : List (String × String)) (body : String)
  | bare (b : Json)

/-- Result of classification + extraction + dispatch, before envelope
rendering: an early-returned response, a missing tool id, an unknown tool id,
or an executed tool outcome. -/
inductive CoreOut where
  | early (r : Response)
  | missing
  | unknown (t : String)
  | done (o : Outcome)

/-- Read a `tool` field value in a context where the source will call a string
method on it: strings pass through, falsy non-strings behave as an empty
(falsy) name, truthy non-strings throw `TypeError` at `tool.startsWith`. -/
def jsToolStr : Option Json → Except String (Option String)
  | none => .ok none
  | some (.str s) => .ok (some s)
  | some j =>
    if j.truthy then .error "TypeError: tool.startsWith is not a function"
    else .ok (some "")

/-- The dispatch `switch` over the five implemented tools; `.ok none` is the
`default` case (unknown tool), `.error` a thrown schema-validation failure. -/
def runToolM (c : Client) (t : String) (p : Option Json) : Except String (Option Outcome) :=
  if t = "get-records" then (parseGetRecords p).map (fun q => some (toolsGetRecords c q))
  else if t = "get-app" then (parseGetApp p).map (fun q => some (toolsGetApp c q))
  else if t = "add-records" then (parseAddRecords p).map (fun q => some (toolsAddRecords c q))
  else if t = "get-apps" then .ok (some (toolsGetApps c))
  else if t = "get-form-fields" then (parseGetApp p).map (fun q => some (toolsGetFormFields c q))
  else .ok none

/-- Normalize, check for a missing tool id, and dispatch (multi-envelope
entry point). -/
def afterResolve (c : Client) (tool : Option String) (params : Option Json) :
    Except String CoreOut :=
  match normalizeToolM tool with
  | none => .ok .missing
  | some t =>
    if t = "" then .ok .missing
    else
      match runToolM c t params with
      | .error m => .error m
      | .ok none => .ok (.unknown t)
      | .ok (some o) => .ok (.done o)

/-- Normalize, check for a missing tool id, and dispatch (second entry
point: no alias table). -/
def afterResolveS (c : Client) (tool : Option String) (params : Option Json) :
    Except String CoreOut :=
  match normalizeToolS tool with
  | none => .ok .missing
  | some t =>
    if t = "" then .ok .missing
    else
      match runToolM c t params with
      | .error m => .error m
      | .ok none => .ok (.unknown t)
      | .ok (some o) => .ok (.done o)

/-- The JSON body returned when an API-Gateway request body fails to parse. -/
def invalidBodyJson : Json :=
  .obj [("success", .bool false), ("error", .str "リクエストボディのJSONが無効です")]

/-- The HTTP headers attached by the multi-envelope entry point. -/
def hdrsM : List (String × String) :=
  [("Content-Type", "application/json"), ("Access-Control-Allow-Origin", "*")]

/-- Result of tool/parameter extraction: either the API-Gateway body failed
to parse (early 400 response), or a possibly-missing tool id and parameter
object. -/
inductive ExtractOut where
  | badBody
  | pair (tool : Option String) (params : Option Json)

/-- Classification and tool/parameter extraction of the multi-envelope entry
point (`index.ts` lines 401–573). -/
def extractM (pj : String → Option Json) (e ctx : Json) : Except String ExtractOut :=
  match classifyM e ctx with
  | .gatewayManaged =>
    -- Pattern 1: tool from the invocation context, parameters = whole event.
    (match jsStr? (ctxTool ctx) with
     | some s => .ok (.pair (some (gatewayToolOf s)) (some e))
     | none => .error "TypeError: originalToolName.includes is not a function")
  | .emptyPayload =>
    -- Pattern 2: default to get-apps with empty parameters.
    .ok (.pair (some "get-apps") (some (.obj [])))
  | .jsonRpcCall =>
    -- Pattern 3: tool from params.name, parameters from params.arguments.
    (match ((e.get? "params").getD .null).get? "name" with
     | none =>
       .ok (.pair none (some (truthyOrD (((e.get? "params").getD .null).get? "arguments") (.obj []))))
     | some (.str s) =>
       .ok (.pair (some (mcpNameToolOf s))
         (some (truthyOrD (((e.get? "params").getD .null).get? "arguments") (.obj []))))
     | some j =>
       if j.truthy then .error "TypeError: toolName.startsWith is not a function"
       else .ok (.pair (some "")
         (some (truthyOrD (((e.get? "params").getD .null).get? "arguments") (.obj [])))))
  | .legacyOperationId =>
    -- Pattern 4: operationId mapping, parameters from context.input.
    (match e.get? "operationId" with
     | some (.str s) =>
       if s != "" then
         .ok (.pair (some (opIdToolOf s)) (some (truthyOrD (jpath e ["context", "input"]) (.obj []))))
       else .ok (.pair none (some (truthyOrD (jpath e ["context", "input"]) (.obj []))))
     | some j =>
       if j.truthy then .error "TypeError: tool.startsWith is not a function"
       else .ok (.pair none (some (truthyOrD (jpath e ["context", "input"]) (.obj []))))
     | none => .ok (.pair none (some (truthyOrD (jpath e ["context", "input"]) (.obj [])))))
  | .legacyPrefixedName f =>
    -- Patterns 5–7: prefixed name/toolName/tool_name field.
    (match f with
     | .nameF =>
       (match jsStr? (e.get? "name") with
        | some s => .ok (.pair (some (legacyToolOf s)) (some (truthyOrD (e.get? "arguments") (.obj []))))
        | none => .ok (.pair none none))
     | .toolNameF =>
       (match jsStr? (e.get? "toolName") with
        | some s =>
          .ok (.pair (some (legacyToolOf s))
            (some (truthyOrD (truthyOrO (e.get? "arguments") (e.get? "params")) (.obj []))))
        | none => .ok (.pair none none))
     | .toolUnderF =>
       (match jsStr? (e.get? "tool_name") with
        | some s =>
          .ok (.pair (some (legacyToolOf s))
            (some (truthyOrD (truthyOrO (e.get? "arguments") (e.get? "params")) (.obj []))))
        | none => .ok (.pair none none)))
  | .queueMessage =>
    -- Pattern 8: first record's body is parsed as embedded JSON.
    (match e.get? "Records" with
     | some (.arr (r :: _)) =>
       (match r.get? "body" with
        | b =>
          if otruthy b then
            match jsStr? b with
            | some s =>
              (match pj s with
               | some bd =>
                 (match jsToolStr (bd.get? "tool") with
                  | .error m => .error m
                  | .ok t => .ok (.pair t (bd.get? "params")))
               | none => .error "SQS/SNSボディのJSONが無効です")
            | none => .error "SQS/SNSボディのJSONが無効です"
          else .ok (.pair none none))
     | some (.arr []) => .error "TypeError: Cannot read properties of undefined (reading 'body')"
     | _ => .ok (.pair none none))
  | .httpProxy =>
    -- Pattern 9: tool/params from the parsed HTTP body; a parse failure is an
    -- early 400 response.
    (match e.get? "body" with
     | b =>
       if otruthy b then
         match jsStr? b with
         | some s =>
           (match pj s with
            | some rd =>
              (match jsToolStr (rd.get? "tool") with
               | .error m => .error m
               | .ok t => .ok (.pair t (rd.get? "params")))
            | none => .ok .badBody)
         | none => .ok .badBody
       else .ok (.pair none none))
  | .eventBus =>
    -- Pattern 10: tool/params from event.detail.
    (match jsToolStr (jpath e ["detail", "tool"]) with
     | .error m => .error m
     | .ok t => .ok (.pair t (some (truthyOrD (jpath e ["detail", "params"]) (.obj [])))))
  | .directInvoke =>
    -- Pattern 11: tool/params from the top-level event fields.
    (match jsToolStr (e.get? "tool") with
     | .error m => .error m
     | .ok t => .ok (.pair t (e.get? "params")))

/-- Classification, extraction and dispatch of the multi-envelope entry point
(`index.ts` lines 401–708, the part inside `try` after client construction). -/
def handlerCoreM (pj : String → Option Json) (c : Client) (e ctx : Json) :
    Except String CoreOut :=
  match extractM pj e ctx with
  | .error m => .error m
  | .ok .badBody => .ok (.early (.http 400 hdrsM (render invalidBodyJson)))
  | .ok (.pair t p) => afterResolve c t p

/-! ## Response rendering (multi-envelope entry point) -/

/-- `event.id || 1`. -/
def jsonRpcIdOf (e : Json) : Json := truthyOrD (e.get? "id") (.num 1)

/-- The HTTP-shaped rendering condition probed at every render site of the
multi-envelope entry point (`index.ts` lines 627–630 and analogues). -/
def renderCondM (e ctx : Json) : Bool :=
  (otruthy (ctxTool ctx) || otruthy (ctxToolCap ctx)) ||
    (otruthy (e.get? "operationId") ||
      (otruthy (e.get? "context") && (jpath e ["context", "input"]).isSome)) ||
    pLegacy e "name" ||
    otruthy (e.get? "httpMethod") || otruthy (e.get? "requestContext")

/-- The `debug` object of the missing-tool error (`index.ts` lines 600–610).
`eventKeys` order follows the modelled field list. -/
def debugJson (e ctx : Json) : Json :=
  .obj ([("eventKeys", .arr (jsKeys e)),
         ("eventType", .str (jsTypeof e)),
         ("hasMethod", .bool (otruthy (e.get? "method"))),
         ("hasOperationId", .bool (otruthy (e.get? "operationId"))),
         ("hasName", .bool (otruthy (e.get? "name"))),
         ("hasToolName", .bool (otruthy (e.get? "toolName"))),
         ("hasClientContext", .bool (otruthy (ctx.get? "clientContext"))),
         ("hasCustomContext",
           .bool (otruthy (ccOf ctx) || otruthy (jpath ctx ["clientContext", "Custom"])))] ++
        (match truthyOrO (ctxTool ctx) (ctxToolCap ctx) with
         | some j => [("bedrockAgentCoreToolName", j)]
         | none => []))

/-- The missing-tool error object of the multi-envelope entry point. -/
def missingToolJsonM (e ctx : Json) : Json :=
  .obj [("success", .bool false),
        ("error", .str "ツール名が指定されていません"),
        ("debug", debugJson e ctx)]

/-- The unknown-tool error object (`未対応のツール` = "unsupported tool"). -/
def unknownToolJson (t : String) : Json :=
  .obj [("success", .bool false), ("error", .str ("未対応のツール: " ++ t))]

/-- The `availableTools` list advertised by the multi-envelope entry point. -/
def availableToolsM : Json :=
  .arr [.str "get-apps", .str "get-app", .str "get-records", .str "add-records",
        .str "get-form-fields", .str "update-records", .str "delete-records"]

/-- The error object built by the outermost catch. -/
def catchJson (msg now : String) : Json :=
  .obj [("success", .bool false), ("error", .str msg), ("timestamp", .str now)]

/-- Missing-tool rendering (`index.ts` lines 596–643). -/
def renderMissingToolM (e ctx : Json) : Response :=
  if isMcp e then
    .rpcError (jsonRpcIdOf e) (-32602) "ツール名が指定されていません" (some (debugJson e ctx))
  else if renderCondM e ctx then .http 400 hdrsM (render (missingToolJsonM e ctx))
  else .bare (missingToolJsonM e ctx)

/-- Unknown-tool rendering (`index.ts` lines 674–708). -/
def renderUnknownM (e ctx : Json) (t : String) : Response :=
  if isMcp e then
    .rpcError (jsonRpcIdOf e) (-32601) ("未対応のツール: " ++ t)
      (some (.obj [("availableTools", availableToolsM)]))
  else if renderCondM e ctx then .http 400 hdrsM (render (unknownToolJson t))
  else .bare (unknownToolJson t)

/-- Executed-tool rendering (`index.ts` lines 712–745). -/
def renderDoneM (e ctx : Json) (o : Outcome) : Response :=
  if isMcp e then .rpcResult (jsonRpcIdOf e) (!o.ok?) (render (outcomeJson o))
  else if renderCondM e ctx then .http 200 hdrsM (render (outcomeJson o))
  else .bare (outcomeJson o)

/-- Outermost-catch rendering (`index.ts` lines 747–791). -/
def renderCatchM (e ctx : Json) (now msg : String) : Response :=
  if isMcp e then
    .rpcError (jsonRpcIdOf e) (-32603) msg (some (.obj [("timestamp", .str now)]))
  else if renderCondM e ctx then .http 500 hdrsM (render (catchJson msg now))
  else .bare (catchJson msg now)

/-- Render a dispatch result in the caller's envelope. -/
def renderCoreM (e ctx : Json) : CoreOut → Response
  | .early r => r
  | .missing => renderMissingToolM e ctx
  | .unknown t => renderUnknownM e ctx t
  | .done o => renderDoneM e ctx o

/-- The body of the `try` block of the multi-envelope entry point. -/
def tryM (env : Env) (pj : String → Option Json) (c : Client) (e ctx : Json) :
    Except String CoreOut :=
  match getKintoneConfig env with
  | .error m => .error m
  | .ok cfg =>
    match createCheck cfg with
    | .error m => .error m
    | .ok _ => handlerCoreM pj c e ctx

/-- The multi-envelope Lambda entry point (`src/MyKintone/src/index.ts`). -/
def handlerM (env : Env) (pj : String → Option Json) (c : Client) (now : String)
    (e ctx : Json) : Response :=
  match tryM env pj c e ctx with
  | .ok co => renderCoreM e ctx co
  | .error msg => renderCatchM e ctx now msg

/-! ## The second entry point (`src/unnamed/part_000`) -/

/-- The HTTP headers attached by the second entry point. -/
def hdrsS : List (String × String) := [("Content-Type", "application/json")]

/-- The second entry point's gateway rendering condition:
`customContext?.bedrockAgentCoreToolName` is truthy. -/
def gwS (ctx : Json) : Bool := otruthy (ctxTool ctx)

/-- Classification and tool/parameter extraction of the second entry point
(`part_000` lines 825–854): gateway-managed, then JSON-RPC, then direct
invocation. -/
def extractS (e ctx : Json) : Except String (Option String × Option Json) :=
  if pGateway ctx then
    match jsStr? (ctxTool ctx) with
    | some s => .ok (extractToolNameS (some s), some e)
    | none => .error "TypeError: toolName.includes is not a function"
  else if pMcp e then
    match ((e.get? "params").getD .null).get? "name" with
    | none =>
      .ok (none, some (truthyOrD (((e.get? "params").getD .null).get? "arguments") (.obj [])))
    | some (.str s) =>
      .ok (extractToolNameS (some s),
        some (truthyOrD (((e.get? "params").getD .null).get? "arguments") (.obj [])))
    | some j =>
      if j.truthy then .error "TypeError: toolName.includes is not a function"
      else .ok (some "",
        some (truthyOrD (((e.get? "params").getD .null).get? "arguments") (.obj [])))
  else
    match jsToolStr (e.get? "tool") with
    | .error m => .error m
    | .ok t => .ok (t, some (truthyOrD (e.get? "params") (.obj [])))

/-- Classification, extraction and dispatch of the second entry point
(`part_000` lines 825–947, the part inside `try` after client construction). -/
def handlerCoreS (c : Client) (e ctx : Json) : Except String CoreOut :=
  match extractS e ctx with
  | .error m => .error m
  | .ok (t, p) => afterResolveS c t p

/-- The second entry point's missing-tool error object (no debug section). -/
def missingToolJsonS : Json :=
  .obj [("success", .bool false), ("error", .str "ツール名が指定されていません")]

/-- The `availableTools` list of the second entry point (five entries). -/
def availableToolsS : Json :=
  .arr [.str "get-apps", .str "get-app", .str "get-records", .str "add-records",
        .str "get-form-fields"]

/-- Missing-tool rendering of the second entry point. -/
def renderMissingToolS (e ctx : Json) : Response :=
  if isMcp e then .rpcError (jsonRpcIdOf e) (-32602) "ツール名が指定されていません" none
  else if gwS ctx then .http 400 hdrsS (render missingToolJsonS)
  else .bare missingToolJsonS

/-- Unknown-tool rendering of the second entry point. -/
def renderUnknownS (e ctx : Json) (t : String) : Response :=
  if isMcp e then
    .rpcError (jsonRpcIdOf e) (-32601) ("未対応のツール: " ++ t)
      (some (.obj [("availableTools", availableToolsS)]))
  else if gwS ctx then .http 400 hdrsS (render (unknownToolJson t))
  else .bare (unknownToolJson t)

/-- Executed-tool rendering of the second entry point. -/
def renderDoneS (e ctx : Json) (o : Outcome) : Response :=
  if isMcp e then .rpcResult (jsonRpcIdOf e) (!o.ok?) (render (outcomeJson o))
  else if gwS ctx then .http 200 hdrsS (render (outcomeJson o))
  else .bare (outcomeJson o)

/-- Outermost-catch rendering of the second entry point. -/
def renderCatchS (e ctx : Json) (now msg : String) : Response :=
  if isMcp e then .rpcError (jsonRpcIdOf e) (-32603) msg none
  else if gwS ctx then .http 500 hdrsS (render (catchJson msg now))
  else .bare (catchJson msg now)

/-- Render a dispatch result of the second entry point. -/
def renderCoreS (e ctx : Json) : CoreOut → Response
  | .early r => r
  | .missing => renderMissingToolS e ctx
  | .unknown t => renderUnknownS e ctx t
  | .done o => renderDoneS e ctx o

/-- The body of the `try` block of the second entry point. -/
def tryS (env : Env) (c : Client) (e ctx : Json) : Except String CoreOut :=
  match getKintoneConfig env with
  | .error m => .error m
  | .ok cfg =>
    match createCheck cfg with
    | .error m => .error m
    | .ok _ => handlerCoreS c e ctx

/-- The second Lambda entry point (`src/unnamed/part_000`). -/
def handlerS (env : Env) (c : Client) (now : String) (e ctx : Json) : Response :=
  match tryS env c e ctx with
  | .ok co => renderCoreS e ctx co
  | .error msg => renderCatchS e ctx now msg

/-! ## Response projections and concrete test fixtures -/

/-- The `statusCode` of an HTTP-shaped response. -/
def Response.statusCode? : Response → Option Nat
  | .http s _ _ => some s
  | _ => none

/-- The `id` of a JSON-RPC-shaped response. -/
def Response.rpcId? : Response → Option Json
  | .rpcResult i _ _ => some i
  | .rpcError i _ _ _ => some i
  | _ => none

/-- The error `code` of a JSON-RPC error response. -/
def Response.rpcCode? : Response → Option Int
  | .rpcError _ c _ _ => some c
  | _ => none

/-- The `isError` flag of a JSON-RPC result response. -/
def Response.rpcIsError? : Response → Option Bool
  | .rpcResult _ b _ => some b
  | _ => none

/-- The `error` string of a bare error-object response. -/
def Response.bareError? : Response → Option String
  | .bare j => jsStr? (j.get? "error")
  | _ => none

/-- A well-formed environment (all required variables set). -/
def stubEnv : Env :=
  { baseUrl := some "https://example.cybozu.com"
    username := some "user"
    password := some "pass"
    basicUser := none
    basicPass := none }

/-- A record-store client whose every operation succeeds with a small
payload. -/
def stubClient : Client :=
  { getRecordsR := fun _ _ _ _ => .ok (.arr [], .num 0)
    getAppR := fun _ => .ok (.obj [("appId", .str "1")])
    addRecordsR := fun _ _ => .ok (.arr [.str "1"], .arr [.str "1"])
    getAppsR := .ok (.arr [.obj [("appId", .str "1")]])
    getFormFieldsR := fun _ => .ok (.obj []) }

/-- A `JSON.parse` oracle that accepts nothing. -/
def pjNone : String → Option Json := fun _ => none

/-- The seven canonical tool ids of the registry. -/
def canonicalToolIds : List String :=
  ["get-apps", "get-app", "get-records", "add-records", "get-form-fields",
   "update-records", "delete-records"]

/-- Invariant of every HTTP-shaped response: it carries the JSON content type
and its body is the rendering of some JSON value. -/
def httpInvariant (r : Response) : Prop :=
  match r with
  | .http _ h b => (("Content-Type", "application/json") ∈ h) ∧ ∃ j, b = render j
  | _ => True

/-- An invocation context whose gateway tool name targets `get-records`
through the generic delimiter (spec scenario 4). -/
def ctxGetRecords : Json :=
  .obj [("clientContext", .obj [("custom",
    .obj [("bedrockAgentCoreToolName", .str "T___kintone-get-records")])])]

/-- An invocation context whose gateway tool name contains two delimiter
occurrences. -/
def ctxDoubleDelim : Json :=
  .obj [("clientContext", .obj [("custom",
    .obj [("bedrockAgentCoreToolName", .str "MyKintoneTarget___v2___kintone-get-apps")])])]

/-- A JSON-RPC `tools/call` request for `get-records` with empty arguments
(missing the required `app`). -/
def rpcBadParams : Json :=
  .obj [("method", .str "tools/call"),
        ("params", .obj [("name", .str "MyKintoneTarget___kintone-get-records"),
                         ("arguments", .obj [])])]

/-- A JSON-RPC `tools/call` request naming a tool `t` with empty arguments. -/
def rpcEvOf (t : String) : Json :=
  .obj [("method", .str "tools/call"),
        ("params", .obj [("name", .str t), ("arguments", .obj [])])]

/-- A direct-invoke request naming a tool `t`. -/
def directEvOf (t : String) : Json := .obj [("tool", .str t)]

/-- An API-Gateway HTTP-proxy request with an opaque body. -/
def httpEv : Json := .obj [("httpMethod", .str "POST"), ("body", .str "x")]

/-- A `JSON.parse` oracle that parses every body to a direct tool call of `t`
with the given parameters. -/
def pjToolOf (t : String) (params : Json) : String → Option Json :=
  fun _ => some (.obj [("tool", .str t), ("params", params)])

/-- A JSON-RPC `tools/call` request for `get-app` (app id 7) carrying
request id 3. -/
def rpcGetApp7 : Json :=
  .obj [("method", .str "tools/call"), ("id", .num 3),
        ("params", .obj [("name", .str "get-app"),
                         ("arguments", .obj [("id", .str "7")])])]

/-- A payload satisfying both the legacy prefixed-name predicate and the
HTTP-proxy predicate. -/
def legacyHttpEv : Json :=
  .obj [("name", .str "MyKintoneTarget___kintone-get-apps"), ("httpMethod", .str "POST")]

/-- A record-store client whose `getApp` operation throws a network error. -/
def failingClient : Client :=
  { stubClient with getAppR := fun _ => .error "boom" }

/-- A JSON-RPC `tools/call` request carrying the legal JSON-RPC id `0`. -/
def rpc0ev : Json :=
  .obj [("method", .str "tools/call"), ("id", .num 0),
        ("params", .obj [("name", .str "get-apps"), ("arguments", .obj [])])]

/-! ## Helper lemmas -/

/-- A payload with zero own keys has no readable field. -/
theorem get?_eq_none_of_keyCount (e : Json) (h : keyCount e = 0) (k : String) :
    e.get? k = none := by
  cases e <;> simp_all [keyCount, Json.get?]

/-- Truthiness of an absent value. -/
@[simp] theorem otruthy_none : otruthy none = false := rfl

/-- A config produced by `getKintoneConfig` always passes `createCheck`. -/
theorem createCheck_ok (env : Env) (c : Config) (h : getKintoneConfig env = .ok c) :
    createCheck c = .ok () := by
  unfold getKintoneConfig at h
  split_ifs at h with hb hup hbasic <;> cases h
  all_goals simp [createCheck, hup]

/-- The alias table maps every tool id to itself. -/
theorem aliasStep_id (s : String) : aliasStep s = s := by
  unfold aliasStep toolNameMappingA
  split_ifs <;> simp_all

/-- Dispatch never produces an early response. -/
theorem afterResolve_ne_early (c : Client) (t : Option String) (p : Option Json)
    (r : Response) : afterResolve c t p ≠ .ok (.early r) := by
  unfold afterResolve
  split
  · simp
  · split
    · simp
    · split <;> simp

/-- Dispatch of the second entry point never produces an early response. -/
theorem afterResolveS_ne_early (c : Client) (t : Option String) (p : Option Json)
    (r : Response) : afterResolveS c t p ≠ .ok (.early r) := by
  unfold afterResolveS
  split
  · simp
  · split
    · simp
    · split <;> simp

/-- A request classified as `JsonRpcCall` satisfies the JSON-RPC predicate. -/
theorem classifyM_rpc_pMcp (e ctx : Json) (h : classifyM e ctx = .jsonRpcCall) :
    pMcp e = true := by
  unfold classifyM at h
  split_ifs at h
  all_goals simp_all

/-- A request classified as `JsonRpcCall` has `method === 'tools/call'`. -/
theorem classifyM_rpc_isMcp (e ctx : Json) (h : classifyM e ctx = .jsonRpcCall) :
    isMcp e = true := by
  have := classifyM_rpc_pMcp e ctx h
  unfold pMcp at this
  exact (Bool.and_eq_true _ _ |>.mp this).1

/-- Under `JsonRpcCall` classification, extraction never reports a bad
HTTP body. -/
theorem extractM_rpc_not_badBody (pj : String → Option Json) (e ctx : Json)
    (h : classifyM e ctx = .jsonRpcCall) : extractM pj e ctx ≠ .ok .badBody := by
  intro hbad
  unfold extractM at hbad
  rw [h] at hbad
  rcases hn : ((e.get? "params").getD Json.null).get? "name" with _ | j
  · rw [hn] at hbad
    simp at hbad
  · rw [hn] at hbad
    rcases j <;> simp at hbad <;> split at hbad <;> simp_all

/-- The multi-envelope core produces an early response only on a bad HTTP
body. -/
theorem handlerCoreM_ne_early_of_not_badBody (pj : String → Option Json)
    (c : Client) (e ctx : Json) (r : Response)
    (hnb : extractM pj e ctx ≠ .ok .badBody) :
    handlerCoreM pj c e ctx ≠ .ok (.early r) := by
  unfold handlerCoreM
  cases hx : extractM pj e ctx with
  | error m => simp
  | ok xo =>
    cases xo with
    | badBody => exact absurd hx hnb
    | pair t p => exact afterResolve_ne_early c t p r

/-- The second entry point's core never produces an early response. -/
theorem handlerCoreS_ne_early (c : Client) (e ctx : Json) (r : Response) :
    handlerCoreS c e ctx ≠ .ok (.early r) := by
  unfold handlerCoreS
  cases hx : extractS e ctx with
  | error m => simp
  | ok tp =>
    obtain ⟨t, p⟩ := tp
    exact afterResolveS_ne_early c t p r

/-- An early response of the multi-envelope core is the invalid-body 400. -/
theorem handlerCoreM_early_shape (pj : String → Option Json) (c : Client)
    (e ctx : Json) (r : Response)
    (h : handlerCoreM pj c e ctx = .ok (.early r)) :
    r = .http 400 hdrsM (render invalidBodyJson) := by
  unfold handlerCoreM at h
  cases hx : extractM pj e ctx with
  | error m => rw [hx] at h; cases h
  | ok xo =>
    cases xo with
    | badBody =>
      rw [hx] at h
      simpa using h.symm
    | pair t p =>
      rw [hx] at h
      exact absurd h (afterResolve_ne_early c t p r)

/-- Every JSON-RPC-path rendering of the multi-envelope entry point carries
the defaulted request id. -/
theorem rpcId_renderMissingToolM (e ctx : Json) (h : isMcp e = true) :
    (renderMissingToolM e ctx).rpcId? = some (jsonRpcIdOf e) := by
  simp [renderMissingToolM, h, Response.rpcId?]

theorem rpcId_renderUnknownM (e ctx : Json) (t : String) (h : isMcp e = true) :
    (renderUnknownM e ctx t).rpcId? = some (jsonRpcIdOf e) := by
  simp [renderUnknownM, h, Response.rpcId?]

theorem rpcId_renderDoneM (e ctx : Json) (o : Outcome) (h : isMcp e = true) :
    (renderDoneM e ctx o).rpcId? = some (jsonRpcIdOf e) := by
  simp [renderDoneM, h, Response.rpcId?]

theorem rpcId_renderCatchM (e ctx : Json) (now msg : String) (h : isMcp e = true) :
    (renderCatchM e ctx now msg).rpcId? = some (jsonRpcIdOf e) := by
  simp [renderCatchM, h, Response.rpcId?]

/-- Every JSON-RPC-path rendering of the second entry point carries the
defaulted request id. -/
theorem rpcId_renderMissingToolS (e ctx : Json) (h : isMcp e = true) :
    (renderMissingToolS e ctx).rpcId? = some (jsonRpcIdOf e) := by
  simp [renderMissingToolS, h, Response.rpcId?]

theorem rpcId_renderUnknownS (e ctx : Json) (t : String) (h : isMcp e = true) :
    (renderUnknownS e ctx t).rpcId? = some (jsonRpcIdOf e) := by
  simp [renderUnknownS, h, Response.rpcId?]

theorem rpcId_renderDoneS (e ctx : Json) (o : Outcome) (h : isMcp e = true) :
    (renderDoneS e ctx o).rpcId? = some (jsonRpcIdOf e) := by
  simp [renderDoneS, h, Response.rpcId?]

theorem rpcId_renderCatchS (e ctx : Json) (now msg : String) (h : isMcp e = true) :
    (renderCatchS e ctx now msg).rpcId? = some (jsonRpcIdOf e) := by
  simp [renderCatchS, h, Response.rpcId?]

/-- The missing-tool rendering satisfies the HTTP invariant. -/
theorem httpInv_missingM (e ctx : Json) : httpInvariant (renderMissingToolM e ctx) := by
  unfold renderMissingToolM
  split_ifs
  · exact True.intro
  · exact ⟨by simp [hdrsM], _, rfl⟩
  · exact True.intro

theorem httpInv_unknownM (e ctx : Json) (t : String) :
    httpInvariant (renderUnknownM e ctx t) := by
  unfold renderUnknownM
  split_ifs
  · exact True.intro
  · exact ⟨by simp [hdrsM], _, rfl⟩
  · exact True.intro

theorem httpInv_doneM (e ctx : Json) (o : Outcome) :
    httpInvariant (renderDoneM e ctx o) := by
  unfold renderDoneM
  split_ifs
  · exact True.intro
  · exact ⟨by simp [hdrsM], _, rfl⟩
  · exact True.intro

theorem httpInv_catchM (e ctx : Json) (now msg : String) :
    httpInvariant (renderCatchM e ctx now msg) := by
  unfold renderCatchM
  split_ifs
  · exact True.intro
  · exact ⟨by simp [hdrsM], _, rfl⟩
  · exact True.intro

theorem httpInv_missingS (e ctx : Json) : httpInvariant (renderMissingToolS e ctx) := by
  unfold renderMissingToolS
  split_ifs
  · exact True.intro
  · exact ⟨by simp [hdrsS], _, rfl⟩
  · exact True.intro

theorem httpInv_unknownS (e ctx : Json) (t : String) :
    httpInvariant (renderUnknownS e ctx t) := by
  unfold renderUnknownS
  split_ifs
  · exact True.intro
  · exact ⟨by simp [hdrsS], _, rfl⟩
  · exact True.intro

theorem httpInv_doneS (e ctx : Json) (o : Outcome) :
    httpInvariant (renderDoneS e ctx o) := by
  unfold renderDoneS
  split_ifs
  · exact True.intro
  · exact ⟨by simp [hdrsS], _, rfl⟩
  · exact True.intro

theorem httpInv_catchS (e ctx : Json) (now msg : String) :
    httpInvariant (renderCatchS e ctx now msg) := by
  unfold renderCatchS
  split_ifs
  · exact True.intro
  · exact ⟨by simp [hdrsS], _, rfl⟩
  · exact True.intro

/-- The multi-envelope handler always satisfies the HTTP invariant. -/
theorem handlerM_httpInvariant (env : Env) (pj : String → Option Json) (c : Client)
    (now : String) (e ctx : Json) : httpInvariant (handlerM env pj c now e ctx) := by
  unfold handlerM
  cases htry : tryM env pj c e ctx with
  | error m => exact httpInv_catchM e ctx now m
  | ok co =>
    cases co with
    | early r =>
      have hcore : handlerCoreM pj c e ctx = .ok (.early r) := by
        unfold tryM at htry
        cases hc : getKintoneConfig env with
        | error m => rw [hc] at htry; cases htry
        | ok cfg =>
          rw [hc] at htry
          have h2 : (match createCheck cfg with
                     | .error m => (.error m : Except String CoreOut)
                     | .ok _ => handlerCoreM pj c e ctx) = .ok (.early r) := htry
          rw [createCheck_ok env cfg hc] at h2
          exact h2
      rw [handlerCoreM_early_shape pj c e ctx r hcore]
      exact ⟨by simp [hdrsM], _, rfl⟩
    | missing => exact httpInv_missingM e ctx
    | unknown t => exact httpInv_unknownM e ctx t
    | done o => exact httpInv_doneM e ctx o

/-- The second handler always satisfies the HTTP invariant. -/
theorem handlerS_httpInvariant (env : Env) (c : Client) (now : String) (e ctx : Json) :
    httpInvariant (handlerS env c now e ctx) := by
  unfold handlerS
  cases htry : tryS env c e ctx with
  | error m => exact httpInv_catchS e ctx now m
  | ok co =>
    cases co with
    | early r =>
      exfalso
      unfold tryS at htry
      cases hc : getKintoneConfig env with
      | error m => rw [hc] at htry; cases htry
      | ok cfg =>
        rw [hc] at htry
        have h2 : (match createCheck cfg with
                   | .error m => (.error m : Except String CoreOut)
                   | .ok _ => handlerCoreS c e ctx) = .ok (.early r) := htry
        rw [createCheck_ok env cfg hc] at h2
        exact handlerCoreS_ne_early c e ctx r h2
    | missing => exact httpInv_missingS e ctx
    | unknown t => exact httpInv_unknownS e ctx t
    | done o => exact httpInv_doneS e ctx o

/-- With a well-formed configuration, the `try` body of the multi-envelope
entry point is its dispatch core. -/
theorem tryM_eq_core (env : Env) (pj : String → Option Json) (c : Client)
    (e ctx : Json) (cfg : Config) (hc : getKintoneConfig env = .ok cfg) :
    tryM env pj c e ctx = handlerCoreM pj c e ctx := by
  unfold tryM
  rw [hc]
  have h2 : (match createCheck cfg with
             | .error m => (.error m : Except String CoreOut)
             | .ok _ => handlerCoreM pj c e ctx) = handlerCoreM pj c e ctx := by
    rw [createCheck_ok env cfg hc]
  exact h2

/-- With a well-formed configuration, the `try` body of the second entry
point is its dispatch core. -/
theorem tryS_eq_core (env : Env) (c : Client) (e ctx : Json) (cfg : Config)
    (hc : getKintoneConfig env = .ok cfg) :
    tryS env c e ctx = handlerCoreS c e ctx := by
  unfold tryS
  rw [hc]
  have h2 : (match createCheck cfg with
             | .error m => (.error m : Except String CoreOut)
             | .ok _ => handlerCoreS c e ctx) = handlerCoreS c e ctx := by
    rw [createCheck_ok env cfg hc]
  exact h2

/-- On a request classified `JsonRpcCall`, every response of the
multi-envelope entry point is JSON-RPC-shaped with the defaulted id. -/
theorem handlerM_rpcId (env : Env) (pj : String → Option Json) (c : Client)
    (now : String) (e ctx : Json) (h : classifyM e ctx = .jsonRpcCall) :
    (handlerM env pj c now e ctx).rpcId? = some (jsonRpcIdOf e) := by
  have hm : isMcp e = true := classifyM_rpc_isMcp e ctx h
  unfold handlerM
  cases htry : tryM env pj c e ctx with
  | error m => exact rpcId_renderCatchM e ctx now m hm
  | ok co =>
    cases co with
    | early r =>
      exfalso
      unfold tryM at htry
      cases hc : getKintoneConfig env with
      | error m => rw [hc] at htry; cases htry
      | ok cfg =>
        rw [hc] at htry
        have h2 : (match createCheck cfg with
                   | .error m => (.error m : Except String CoreOut)
                   | .ok _ => handlerCoreM pj c e ctx) = .ok (.early r) := htry
        rw [createCheck_ok env cfg hc] at h2
        exact handlerCoreM_ne_early_of_not_badBody pj c e ctx r
          (extractM_rpc_not_badBody pj e ctx h) h2
    | missing => exact rpcId_renderMissingToolM e ctx hm
    | unknown t => exact rpcId_renderUnknownM e ctx t hm
    | done o => exact rpcId_renderDoneM e ctx o hm

/-- On a `tools/call` request, every response of the second entry point is
JSON-RPC-shaped with the defaulted id. -/
theorem handlerS_rpcId (env : Env) (c : Client) (now : String) (e ctx : Json)
    (hm : isMcp e = true) :
    (handlerS env c now e ctx).rpcId? = some (jsonRpcIdOf e) := by
  unfold handlerS
  cases htry : tryS env c e ctx with
  | error m => exact rpcId_renderCatchS e ctx now m hm
  | ok co =>
    cases co with
    | early r =>
      exfalso
      unfold tryS at htry
      cases hc : getKintoneConfig env with
      | error m => rw [hc] at htry; cases htry
      | ok cfg =>
        rw [hc] at htry
        have h2 : (match createCheck cfg with
                   | .error m => (.error m : Except String CoreOut)
                   | .ok _ => handlerCoreS c e ctx) = .ok (.early r) := htry
        rw [createCheck_ok env cfg hc] at h2
        exact handlerCoreS_ne_early c e ctx r h2
    | missing => exact rpcId_renderMissingToolS e ctx hm
    | unknown t => exact rpcId_renderUnknownS e ctx t hm
    | done o => exact rpcId_renderDoneS e ctx o hm

/-! ## Claim theorems -/

/-- Claim C2: Envelope classification is total and deterministic under the fixed
priority order: `classifyM` is exactly the ordered first-match over the
predicate list; whenever one of the three legacy prefixed-name fields
matches, the request is never classified `HttpProxy`; a payload satisfying
both the legacy-name predicate and the HTTP-proxy predicate (and no
higher-priority one) classifies as `LegacyPrefixedName`; and if none of
predicates 1–8 matches, classification defaults to `DirectInvoke` rather
than failing. -/
theorem c2_classification_priority (e ctx : Json) :
    (classifyM e ctx = firstMatch (predList e ctx)) ∧
    ((pLegacy e "name" || pLegacy e "toolName" || pLegacy e "tool_name") = true →
      classifyM e ctx ≠ .httpProxy) ∧
    (pGateway ctx = false → pEmpty e = false → pMcp e = false → pOpId e = false →
      pLegacy e "name" = true → pHttp e = true →
      classifyM e ctx = .legacyPrefixedName .nameF) ∧
    (pGateway ctx = false → pEmpty e = false → pMcp e = false → pOpId e = false →
      pLegacy e "name" = false → pLegacy e "toolName" = false →
      pLegacy e "tool_name" = false → pQueue e = false → pHttp e = false →
      pEvents e = false → classifyM e ctx = .directInvoke) := by
  refine ⟨rfl, ?_, ?_, ?_⟩
  · intro hleg
    unfold classifyM
    split_ifs <;> simp_all
  · intro h1 h2 h3 h4 h5 h6
    simp [classifyM, h1, h2, h3, h4, h5]
  · intro h1 h2 h3 h4 h5 h6 h7 h8 h9 h10
    simp [classifyM, h1, h2, h3, h4, h5, h6, h7, h8, h9, h10]

/-- Claim C2 witness: the payload carrying both a prefixed `name` and `httpMethod`
classifies as the legacy prefixed-name envelope, not as HTTP proxy. -/
theorem c2_classification_priority_witness :
    classifyM legacyHttpEv .null = .legacyPrefixedName .nameF ∧
    classifyM legacyHttpEv .null ≠ .httpProxy := by
  constructor
  · exact (c2_classification_priority legacyHttpEv .null).2.2.1 (by decide) (by decide)
      (by decide) (by decide) (by decide) (by decide)
  · exact (c2_classification_priority legacyHttpEv .null).2.1 (by decide)

/-- Claim C8: on every request classified `JsonRpcCall`, each rendered JSON-RPC
response of both entry points carries `event.id || 1`: id `1` whenever the
request id is absent or falsy (including the legal JSON-RPC id 0), and the
request's id unchanged otherwise. -/
theorem c8_jsonrpc_id_default (env : Env) (pj : String → Option Json) (c : Client)
    (now : String) (e ctx : Json) (h : classifyM e ctx = .jsonRpcCall) :
    (handlerM env pj c now e ctx).rpcId? = some (jsonRpcIdOf e) ∧
    (handlerS env c now e ctx).rpcId? = some (jsonRpcIdOf e) ∧
    (otruthy (e.get? "id") = false → jsonRpcIdOf e = .num 1) ∧
    (∀ j, e.get? "id" = some j → j.truthy = true → jsonRpcIdOf e = j) := by
  refine ⟨handlerM_rpcId env pj c now e ctx h,
          handlerS_rpcId env c now e ctx (classifyM_rpc_isMcp e ctx h), ?_, ?_⟩
  · intro hfalsy
    simp [jsonRpcIdOf, truthyOrD, hfalsy]
  · intro j hj ht
    simp [jsonRpcIdOf, truthyOrD, hj, otruthy, ht]

/-- Claim C8 witness: a `tools/call` request with id `0` is answered with id `1`. -/
theorem c8_jsonrpc_id_default_witness :
    (handlerM stubEnv pjNone stubClient "T" rpc0ev .null).rpcId? =
      some (jsonRpcIdOf rpc0ev) ∧
    jsonRpcIdOf rpc0ev = .num 1 :=
  ⟨(c8_jsonrpc_id_default stubEnv pjNone stubClient "T" rpc0ev .null (by decide)).1,
   (c8_jsonrpc_id_default stubEnv pjNone stubClient "T" rpc0ev .null (by decide)).2.2.1
     (by decide)⟩

/-- Claim C9: every response of either entry point that carries a `statusCode`
(200, 400 or 500, on any path including the outermost catch) also carries a
headers mapping containing `Content-Type: application/json`, and its body is
the JSON serialization of the outcome or error object. -/
theorem c9_http_content_type (env : Env) (pj : String → Option Json) (c : Client)
    (now : String) (e ctx : Json) :
    httpInvariant (handlerM env pj c now e ctx) ∧
    httpInvariant (handlerS env c now e ctx) :=
  ⟨handlerM_httpInvariant env pj c now e ctx, handlerS_httpInvariant env c now e ctx⟩

/-- Claim C3: a request whose payload has zero own keys and whose invocation
context carries no gateway tool-name field is classified `EmptyPayload`,
defaults to the `get-apps` tool with empty parameters, and returns the bare
`ToolOutcome` — on success `{success:true, data:{apps:[...]}}` — rather than
a validation error. -/
theorem c3_empty_payload_get_apps (env : Env) (pj : String → Option Json)
    (c : Client) (now : String) (e ctx : Json) (apps : Json)
    (hcfg : ∃ cfg, getKintoneConfig env = .ok cfg)
    (hk : keyCount e = 0)
    (hct : otruthy (ctxTool ctx) = false)
    (hcap : otruthy (ctxToolCap ctx) = false)
    (happs : c.getAppsR = .ok apps) :
    classifyM e ctx = .emptyPayload ∧
    handlerM env pj c now e ctx =
      .bare (.obj [("success", .bool true), ("data", .obj [("apps", apps)])]) := by
  obtain ⟨cfg, hc⟩ := hcfg
  have hnone : ∀ k, e.get? k = none := get?_eq_none_of_keyCount e hk
  have hg : pGateway ctx = false := by simp [pGateway, hct]
  have hcls : classifyM e ctx = .emptyPayload := by
    simp [classifyM, hg, pEmpty, hk]
  refine ⟨hcls, ?_⟩
  have hex : extractM pj e ctx = .ok (.pair (some "get-apps") (some (.obj []))) := by
    unfold extractM
    rw [hcls]
  have hcore : handlerCoreM pj c e ctx = .ok (.done (toolsGetApps c)) := by
    unfold handlerCoreM
    rw [hex]
    exact rfl
  have hmcp : isMcp e = false := by simp [isMcp, hnone]
  have hcond : renderCondM e ctx = false := by
    simp [renderCondM, hct, hcap, hnone, jpath, pLegacy]
  have hout : toolsGetApps c = .success (.obj [("apps", apps)]) := by
    simp [toolsGetApps, happs]
  unfold handlerM
  rw [tryM_eq_core env pj c e ctx cfg hc, hcore]
  simp [renderCoreM, renderDoneM, hmcp, hcond, hout, outcomeJson]

/-- Claim C3 witness: the empty object with a bare invocation context yields the
bare success outcome of `get-apps`. -/
theorem c3_empty_payload_get_apps_witness :
    classifyM (Json.obj []) .null = .emptyPayload ∧
    handlerM stubEnv pjNone stubClient "T" (.obj []) .null =
      .bare (.obj [("success", .bool true),
                   ("data", .obj [("apps", .arr [.obj [("appId", .str "1")]])])]) :=
  c3_empty_payload_get_apps stubEnv pjNone stubClient "T" (.obj []) .null
    (.arr [.obj [("appId", .str "1")]]) ⟨_, rfl⟩ rfl rfl rfl rfl

/-- Claim C4: for every canonical tool id outside the five implemented handlers
(`update-records`, `delete-records`, or any unregistered string that reaches
dispatch unchanged), dispatch yields the unsupported-tool outcome rendered
per envelope — JSON-RPC error code −32601, HTTP statusCode 400, or the bare
error object — and never an uncaught exception. -/
theorem c4_unknown_tool_not_found (env : Env) (pj : String → Option Json)
    (c : Client) (now : String) (t : String)
    (hcfg : ∃ cfg, getKintoneConfig env = .ok cfg)
    (h0 : t ≠ "")
    (h1 : t ≠ "get-records") (h2 : t ≠ "get-app") (h3 : t ≠ "add-records")
    (h4 : t ≠ "get-apps") (h5 : t ≠ "get-form-fields")
    (hk : strStartsWith t "kintone-" = false)
    (hp : strStartsWith t "MyKintoneTarget___" = false)
    (hinc : strIncludes t "___" = false) :
    handlerM env pj c now (rpcEvOf t) .null =
      .rpcError (.num 1) (-32601) ("未対応のツール: " ++ t)
        (some (.obj [("availableTools", availableToolsM)])) ∧
    (handlerM env (pjToolOf t (.obj [])) c now httpEv .null).statusCode? = some 400 ∧
    handlerM env pj c now (directEvOf t) .null = .bare (unknownToolJson t) ∧
    handlerS env c now (directEvOf t) .null = .bare (unknownToolJson t) ∧
    handlerS env c now (rpcEvOf t) .null =
      .rpcError (.num 1) (-32601) ("未対応のツール: " ++ t)
        (some (.obj [("availableTools", availableToolsS)])) := by
  obtain ⟨cfg, hc⟩ := hcfg
  have hkp : kintonePrefixStep t = t := by simp [kintonePrefixStep, hk]
  have hrun : ∀ p, runToolM c t p = .ok none := by
    intro p
    simp [runToolM, h1, h2, h3, h4, h5]
  have haft : ∀ p, afterResolve c (some t) p = .ok (.unknown t) := by
    intro p
    simp [afterResolve, normalizeToolM, hkp, aliasStep_id, h0, hrun]
  have haftS : ∀ p, afterResolveS c (some t) p = .ok (.unknown t) := by
    intro p
    simp [afterResolveS, normalizeToolS, hkp, h0, hrun]
  have hname : mcpNameToolOf t = t := by simp [mcpNameToolOf, hp]
  have hextS : extractToolNameS (some t) = some t := by simp [extractToolNameS, hinc]
  refine ⟨?_, ?_, ?_, ?_, ?_⟩
  · -- JSON-RPC envelope of the multi-envelope entry point
    have hcls : classifyM (rpcEvOf t) .null = .jsonRpcCall := rfl
    have hex : extractM pj (rpcEvOf t) .null =
        .ok (.pair (some (mcpNameToolOf t)) (some (.obj []))) := by
      unfold extractM
      rw [hcls]
      exact rfl
    have hcore : handlerCoreM pj c (rpcEvOf t) .null = .ok (.unknown t) := by
      unfold handlerCoreM
      rw [hex]
      show afterResolve c (some (mcpNameToolOf t)) (some (.obj [])) = .ok (.unknown t)
      rw [hname]
      exact haft _
    unfold handlerM
    rw [tryM_eq_core env pj c (rpcEvOf t) .null cfg hc, hcore]
    simp [renderCoreM, renderUnknownM]
    exact rfl
  · -- HTTP-proxy envelope of the multi-envelope entry point
    have hcls : classifyM httpEv .null = .httpProxy := by decide
    have hex : extractM (pjToolOf t (.obj [])) httpEv .null =
        .ok (.pair (some t) (some (.obj []))) := by
      unfold extractM
      rw [hcls]
      exact rfl
    have hcore : handlerCoreM (pjToolOf t (.obj [])) c httpEv .null = .ok (.unknown t) := by
      unfold handlerCoreM
      rw [hex]
      show afterResolve c (some t) (some (.obj [])) = .ok (.unknown t)
      exact haft _
    unfold handlerM
    rw [tryM_eq_core env (pjToolOf t (.obj [])) c httpEv .null cfg hc, hcore]
    have hm : isMcp httpEv = false := by decide
    have hcond : renderCondM httpEv .null = true := by decide
    simp [renderCoreM, renderUnknownM, hm, hcond, Response.statusCode?]
  · -- direct invocation of the multi-envelope entry point
    have hcls : classifyM (directEvOf t) .null = .directInvoke := rfl
    have hex : extractM pj (directEvOf t) .null = .ok (.pair (some t) none) := by
      unfold extractM
      rw [hcls]
      exact rfl
    have hcore : handlerCoreM pj c (directEvOf t) .null = .ok (.unknown t) := by
      unfold handlerCoreM
      rw [hex]
      show afterResolve c (some t) none = .ok (.unknown t)
      exact haft _
    unfold handlerM
    rw [tryM_eq_core env pj c (directEvOf t) .null cfg hc, hcore]
    simp [renderCoreM, renderUnknownM]
    exact rfl
  · -- direct invocation of the second entry point
    have hextS3 : extractS (directEvOf t) .null = .ok (some t, some (.obj [])) := rfl
    have hcore : handlerCoreS c (directEvOf t) .null = .ok (.unknown t) := by
      unfold handlerCoreS
      rw [hextS3]
      show afterResolveS c (some t) (some (.obj [])) = .ok (.unknown t)
      exact haftS _
    unfold handlerS
    rw [tryS_eq_core env c (directEvOf t) .null cfg hc, hcore]
    simp [renderCoreS, renderUnknownS]
    exact rfl
  · -- JSON-RPC envelope of the second entry point
    have hexS : extractS (rpcEvOf t) .null =
        .ok (extractToolNameS (some t), some (.obj [])) := by
      unfold extractS
      exact rfl
    have hcore : handlerCoreS c (rpcEvOf t) .null = .ok (.unknown t) := by
      unfold handlerCoreS
      rw [hexS, hextS]
      show afterResolveS c (some t) (some (.obj [])) = .ok (.unknown t)
      exact haftS _
    unfold handlerS
    rw [tryS_eq_core env c (rpcEvOf t) .null cfg hc, hcore]
    simp [renderCoreS, renderUnknownS]
    exact rfl

/-- Claim C4 witness: `update-records` is registered but unimplemented and yields
the bare unsupported-tool outcome on direct invocation. -/
theorem c4_unknown_tool_not_found_witness :
    handlerM stubEnv pjNone stubClient "T" (directEvOf "update-records") .null =
      .bare (unknownToolJson "update-records") :=
  (c4_unknown_tool_not_found stubEnv pjNone stubClient "T" "update-records"
    ⟨_, rfl⟩ (by decide) (by decide) (by decide) (by decide) (by decide) (by decide)
    (by decide) (by decide) (by decide)).2.2.1

/-- Claim C5: when a tool handler runs and returns a business failure (the
record-store capability threw), a `JsonRpcCall` request is answered with a
JSON-RPC **result** object whose `isError` is true — not a JSON-RPC error
object — and an HTTP-shaped envelope is answered with statusCode 200, since
the tool executed but business-failed. -/
theorem c5_business_failure_rendering (env : Env) (pj : String → Option Json)
    (c : Client) (now msg : String)
    (hcfg : ∃ cfg, getKintoneConfig env = .ok cfg)
    (hga : c.getAppR "7" = .error msg) :
    handlerM env pj c now rpcGetApp7 .null =
      .rpcResult (.num 3) true (render (outcomeJson (.failure msg))) ∧
    handlerM env (pjToolOf "get-app" (.obj [("id", .str "7")])) c now httpEv .null =
      .http 200 hdrsM (render (outcomeJson (.failure msg))) ∧
    handlerS env c now rpcGetApp7 .null =
      .rpcResult (.num 3) true (render (outcomeJson (.failure msg))) := by
  obtain ⟨cfg, hc⟩ := hcfg
  have hout : toolsGetApp c ⟨"7"⟩ = .failure msg := by simp [toolsGetApp, hga]
  have hrun : runToolM c "get-app" (some (.obj [("id", .str "7")])) =
      .ok (some (.failure msg)) := by
    have hrun0 : runToolM c "get-app" (some (.obj [("id", .str "7")])) =
        .ok (some (toolsGetApp c ⟨"7"⟩)) := rfl
    rw [hrun0, hout]
  have haft : afterResolve c (some "get-app") (some (.obj [("id", .str "7")])) =
      .ok (.done (.failure msg)) := by
    have h0 : afterResolve c (some "get-app") (some (.obj [("id", .str "7")])) =
        (match runToolM c "get-app" (some (.obj [("id", .str "7")])) with
         | .error m => .error m
         | .ok none => .ok (.unknown "get-app")
         | .ok (some o) => .ok (.done o)) := rfl
    rw [h0, hrun]
  have haftS : afterResolveS c (some "get-app") (some (.obj [("id", .str "7")])) =
      .ok (.done (.failure msg)) := by
    have h0 : afterResolveS c (some "get-app") (some (.obj [("id", .str "7")])) =
        (match runToolM c "get-app" (some (.obj [("id", .str "7")])) with
         | .error m => .error m
         | .ok none => .ok (.unknown "get-app")
         | .ok (some o) => .ok (.done o)) := rfl
    rw [h0, hrun]
  refine ⟨?_, ?_, ?_⟩
  · have hcls : classifyM rpcGetApp7 .null = .jsonRpcCall := rfl
    have hex : extractM pj rpcGetApp7 .null =
        .ok (.pair (some "get-app") (some (.obj [("id", .str "7")]))) := by
      unfold extractM
      rw [hcls]
      exact rfl
    have hcore : handlerCoreM pj c rpcGetApp7 .null = .ok (.done (.failure msg)) := by
      unfold handlerCoreM
      rw [hex]
      show afterResolve c (some "get-app") (some (.obj [("id", .str "7")])) =
        .ok (.done (.failure msg))
      exact haft
    unfold handlerM
    rw [tryM_eq_core env pj c rpcGetApp7 .null cfg hc, hcore]
    exact rfl
  · have hcls : classifyM httpEv .null = .httpProxy := by decide
    have hex : extractM (pjToolOf "get-app" (.obj [("id", .str "7")])) httpEv .null =
        .ok (.pair (some "get-app") (some (.obj [("id", .str "7")]))) := by
      unfold extractM
      rw [hcls]
      exact rfl
    have hcore : handlerCoreM (pjToolOf "get-app" (.obj [("id", .str "7")])) c
        httpEv .null = .ok (.done (.failure msg)) := by
      unfold handlerCoreM
      rw [hex]
      show afterResolve c (some "get-app") (some (.obj [("id", .str "7")])) =
        .ok (.done (.failure msg))
      exact haft
    unfold handlerM
    rw [tryM_eq_core env (pjToolOf "get-app" (.obj [("id", .str "7")])) c
      httpEv .null cfg hc, hcore]
    exact rfl
  · have hexS : extractS rpcGetApp7 .null =
        .ok (some "get-app", some (.obj [("id", .str "7")])) := rfl
    have hcore : handlerCoreS c rpcGetApp7 .null = .ok (.done (.failure msg)) := by
      unfold handlerCoreS
      rw [hexS]
      show afterResolveS c (some "get-app") (some (.obj [("id", .str "7")])) =
        .ok (.done (.failure msg))
      exact haftS
    unfold handlerS
    rw [tryS_eq_core env c rpcGetApp7 .null cfg hc, hcore]
    exact rfl

/-- Claim C5 witness: a failing `getApp` capability call is rendered as a JSON-RPC
result object with `isError:true`. -/
theorem c5_business_failure_rendering_witness :
    handlerM stubEnv pjNone failingClient "T" rpcGetApp7 .null =
      .rpcResult (.num 3) true (render (outcomeJson (.failure "boom"))) :=
  (c5_business_failure_rendering stubEnv pjNone failingClient "T" "boom"
    ⟨_, rfl⟩ rfl).1

/-- Claim C7: tool-name resolution is idempotent on every already-canonical id:
for each of the seven canonical ids, the gateway-managed resolver, the
JSON-RPC-name resolver (delimiter stripping, family-prefix stripping, alias
table) and the second entry point's resolver all return the id unchanged. -/
theorem c7_resolution_idempotent (t : String) (h : t ∈ canonicalToolIds) :
    normalizeToolM (some (gatewayToolOf t)) = some t ∧
    normalizeToolM (some (mcpNameToolOf t)) = some t ∧
    normalizeToolS (extractToolNameS (some t)) = some t := by
  fin_cases h <;> exact ⟨by decide, by decide, by decide⟩

/-- Claim C7 witness: resolving `get-apps` yields `get-apps`. -/
theorem c7_resolution_idempotent_witness :
    normalizeToolM (some (gatewayToolOf "get-apps")) = some "get-apps" ∧
    normalizeToolS (extractToolNameS (some "get-apps")) = some "get-apps" :=
  ⟨(c7_resolution_idempotent "get-apps" (by decide)).1,
   (c7_resolution_idempotent "get-apps" (by decide)).2.2⟩

/-- Claim C10: in the gateway-managed, JSON-RPC and legacy prefixed-name paths of
the multi-envelope entry point, family-prefix removal deletes the first
occurrence of `kintone-` anywhere in the delimiter-stripped name — for the
remainder `my-kintone-x` the resolved id is `my-x` — whereas the later
top-level normalization strips `kintone-` only when the string starts with
it. -/
theorem c10_infix_family_prefix_removal :
    gatewayToolOf "MyKintoneTarget___my-kintone-x" = "my-x" ∧
    mcpNameToolOf "MyKintoneTarget___my-kintone-x" = "my-x" ∧
    legacyToolOf "MyKintoneTarget___my-kintone-x" = "my-x" ∧
    replaceFirst "my-kintone-x" "kintone-" = "my-x" ∧
    kintonePrefixStep "my-kintone-x" = "my-kintone-x" ∧
    kintonePrefixStep "kintone-get-apps" = "get-apps" := by decide

/-- Claim C1 (code evaluated at the failing input): a gateway-managed request
resolving to `get-records` with empty parameters — a pure schema-validation
failure — is rendered by the multi-envelope entry point as HTTP 500, and the
JSON-RPC analogue as error code −32603, the internal-error renderings, not
the 400 / −32602 bad-request renderings the specification requires. -/
theorem c1_validation_rendered_as_internal :
    (handlerM stubEnv pjNone stubClient "T" (.obj []) ctxGetRecords).statusCode? =
      some 500 ∧
    (handlerM stubEnv pjNone stubClient "T" rpcBadParams .null).rpcCode? =
      some (-32603) := by decide

/-- Claim C6 (code evaluated at the failing input): on a gateway tool name with two
delimiter occurrences, the multi-envelope entry point (substring after the
**first** occurrence) resolves to `v2___get-apps` and answers 400
unsupported-tool, while the second entry point (split, **last** segment)
resolves to `get-apps` and answers 200 — the two entry points disagree. -/
theorem c6_delimiter_algorithm_divergence :
    (handlerM stubEnv pjNone stubClient "T" (.obj []) ctxDoubleDelim).statusCode? =
      some 400 ∧
    (handlerS stubEnv stubClient "T" (.obj []) ctxDoubleDelim).statusCode? =
      some 200 ∧
    strAfterFirst "MyKintoneTarget___v2___kintone-get-apps" "___" =
      "v2___kintone-get-apps" ∧
    lastSegment "MyKintoneTarget___v2___kintone-get-apps" "___" =
      "kintone-get-apps" ∧
    gatewayToolOf "MyKintoneTarget___v2___kintone-get-apps" = "v2___get-apps" ∧
    extractToolNameS (some "MyKintoneTarget___v2___kintone-get-apps") =
      some "kintone-get-apps" := by decide

end KintoneMcp
